import Mathlib

/-!
Shallow embedding of the `snew` Reddit client library (Rust) in Lean 4.

The embedding follows the source files `src/auth.rs`, `src/things.rs` and
`src/reddit.rs`.  Effects are made explicit:

* HTTP transport is modelled as an oracle that is passed in as a function
  argument (for the feeds) or as a list of pending responses threaded through
  a `GetWorld` state (for `AuthenticatedClient::get`, where the number of
  issued GETs and `login` invocations matters).
* `serde_json` parsing of the two token body shapes is modelled by two
  parser arguments (`String → Option TokenJson`, `String → Option OkButError`);
  only which shape parses matters to the code under verification.
* Rust `RwLock`-guarded mutable fields become explicit state passing: a
  method that mutates `self` returns the new `self`.
* Rust `Vec` buffers are modelled as Lean lists whose head is the *top* of
  the vector (the element `Vec::pop` would return); `vecPop` and `vecExtend`
  translate `Vec::pop` and `Vec::extend`.
-/

namespace Snew

/-- The `Error` enum of `src/reddit.rs` (payloads of foreign error types are
modelled as their rendered message strings). -/
inductive Error where
  | RequestError (msg : String)
  | AuthenticationError (msg : String)
  | APIParseError (msg : String)
  | InvalidHeaderValue (msg : String)
  | NotLoggedInError
  | PoisonError
  | NoReadableContent
deriving Repr, DecidableEq

/-- An HTTP response, reduced to the two observables the code uses:
`Response::status()` and `Response::text()`. -/
structure Response where
  status : Nat
  body : String
deriving Repr, DecidableEq

/-- `Token` from `src/auth.rs`. -/
structure Token where
  access_token : String
  expires_in : Int
  scope : String
  token_type : String
deriving Repr, DecidableEq

/-- `TokenJson` from `src/auth.rs` (the wire shape of a token record). -/
structure TokenJson where
  access_token : String
  expires_in : Int
  scope : String
  token_type : String
  refresh_token : Option String
deriving Repr, DecidableEq

/-- `impl From<TokenJson> for Token` from `src/auth.rs`. -/
def Token.ofJson (token : TokenJson) : Token :=
  { access_token := token.access_token
    expires_in := token.expires_in
    scope := token.scope
    token_type := token.token_type }

/-- `OkButError` from `src/auth.rs`: a 200 body holding a single `error` field. -/
structure OkButError where
  error : String
deriving Repr, DecidableEq

/-- `parse_response` from `src/auth.rs` (lines 326-352).  `pt` and `pe` model
`serde_json::from_str::<TokenJson>` and `serde_json::from_str::<OkButError>`
on the body text; a body-read failure is folded into the transport oracle. -/
def parse_response (pt : String → Option TokenJson) (pe : String → Option OkButError)
    (response : Response) : Except Error TokenJson :=
  let status := response.status
  let slice := response.body
  match pt slice with
  | some token => Except.ok token
  | none =>
    match pe slice with
    | some error =>
      Except.error (Error.AuthenticationError
        ("Username or password are most likely wrong" ++ ", Reddit returned: " ++ error.error))
    | none =>
      if status = 401 then
        Except.error (Error.AuthenticationError
          "Reddit returned 401 Unauthorized, are client ID and secret correct?")
      else
        Except.error (Error.AuthenticationError
          ("Unexpected error occured, text: " ++ slice ++ ", code: " ++ toString status))

/-- `Credentials` from `src/auth.rs`. -/
structure Credentials where
  client_id : String
  client_secret : String
  username : String
  password : String
deriving Repr, DecidableEq

/-- Basic-auth material attached to a token-endpoint POST. -/
structure BasicAuth where
  user : String
  password : Option String
deriving Repr, DecidableEq

/-- A POST to the authorization endpoint, as assembled by the three `login`
implementations: URL, query pairs, and basic auth. -/
structure PostRequest where
  url : String
  queries : List (String × String)
  basic_auth : BasicAuth
deriving Repr, DecidableEq

def access_token_url : String := "https://www.reddit.com/api/v1/access_token"

/-- `ScriptAuthenticator` from `src/auth.rs` (`RwLock<Option<Token>>` becomes
a plain `Option Token`, mutation is explicit state passing). -/
structure ScriptAuthenticator where
  creds : Credentials
  token : Option Token
deriving Repr, DecidableEq

/-- `UserAuthenticator` from `src/auth.rs`. -/
structure UserAuthenticator where
  refresh_token : String
  token : Option Token
  client_id : String
deriving Repr, DecidableEq

/-- `ApplicationAuthenticator` from `src/auth.rs`. -/
structure ApplicationAuthenticator where
  client_id : String
  token : Option Token
deriving Repr, DecidableEq

/-- The POST request built by `ScriptAuthenticator::login` (lines 248-258). -/
def script_request (self : ScriptAuthenticator) : PostRequest :=
  { url := access_token_url
    queries := [("grant_type", "password"),
                ("username", self.creds.username),
                ("password", self.creds.password)]
    basic_auth := { user := self.creds.client_id, password := some self.creds.client_secret } }

/-- The POST request built by `UserAuthenticator::login` (lines 201-209). -/
def user_request (self : UserAuthenticator) : PostRequest :=
  { url := access_token_url
    queries := [("grant_type", "refresh_token"),
                ("refresh_token", self.refresh_token)]
    basic_auth := { user := self.client_id, password := none } }

/-- The POST request built by `ApplicationAuthenticator::login` (lines 296-308). -/
def application_request (self : ApplicationAuthenticator) : PostRequest :=
  { url := access_token_url
    queries := [("grant_type", "https://oauth.reddit.com/grants/installed_client"),
                ("device_id", "DO_NOT_TRACK_THIS_DEVICE")]
    basic_auth := { user := self.client_id, password := none } }

/-- `ScriptAuthenticator::login` (lines 248-263): POST, parse, and only then
overwrite the stored token.  `send` models `Client::post(..).send()`. -/
def ScriptAuthenticator.login (send : PostRequest → Except Error Response)
    (pt : String → Option TokenJson) (pe : String → Option OkButError)
    (self : ScriptAuthenticator) : Except Error Unit × ScriptAuthenticator :=
  match send (script_request self) with
  | Except.error e => (Except.error e, self)
  | Except.ok response =>
    match parse_response pt pe response with
    | Except.error e => (Except.error e, self)
    | Except.ok tokenJson =>
      (Except.ok (), { self with token := some (Token.ofJson tokenJson) })

/-- `UserAuthenticator::login` (lines 201-214). -/
def UserAuthenticator.login (send : PostRequest → Except Error Response)
    (pt : String → Option TokenJson) (pe : String → Option OkButError)
    (self : UserAuthenticator) : Except Error Unit × UserAuthenticator :=
  match send (user_request self) with
  | Except.error e => (Except.error e, self)
  | Except.ok response =>
    match parse_response pt pe response with
    | Except.error e => (Except.error e, self)
    | Except.ok tokenJson =>
      (Except.ok (), { self with token := some (Token.ofJson tokenJson) })

/-- `ApplicationAuthenticator::login` (lines 296-312). -/
def ApplicationAuthenticator.login (send : PostRequest → Except Error Response)
    (pt : String → Option TokenJson) (pe : String → Option OkButError)
    (self : ApplicationAuthenticator) : Except Error Unit × ApplicationAuthenticator :=
  match send (application_request self) with
  | Except.error e => (Except.error e, self)
  | Except.ok response =>
    match parse_response pt pe response with
    | Except.error e => (Except.error e, self)
    | Except.ok tokenJson =>
      (Except.ok (), { self with token := some (Token.ofJson tokenJson) })

/-- `ScriptAuthenticator::is_logged_in` (lines 269-271): `token.is_some()`. -/
def ScriptAuthenticator.is_logged_in (self : ScriptAuthenticator) : Bool :=
  self.token.isSome

/-- `UserAuthenticator::is_logged_in` (lines 220-222): `token.is_some()`. -/
def UserAuthenticator.is_logged_in (self : UserAuthenticator) : Bool :=
  self.token.isSome

/-- `ApplicationAuthenticator::is_logged_in` (lines 317-319): always `false`. -/
def ApplicationAuthenticator.is_logged_in (_self : ApplicationAuthenticator) : Bool :=
  false

/-- The `Box<dyn Authenticator>` stored by `AuthenticatedClient`, closed over
the three variants implemented in `src/auth.rs`. -/
inductive AnyAuthenticator where
  | script (s : ScriptAuthenticator)
  | user (u : UserAuthenticator)
  | application (a : ApplicationAuthenticator)
deriving Repr, DecidableEq

/-- `Authenticator::token` dispatched over the variants (each variant clones
the `RwLock` contents). -/
def AnyAuthenticator.token : AnyAuthenticator → Option Token
  | AnyAuthenticator.script s => s.token
  | AnyAuthenticator.user u => u.token
  | AnyAuthenticator.application a => a.token

/-- `Authenticator::is_logged_in` dispatched over the variants. -/
def AnyAuthenticator.is_logged_in : AnyAuthenticator → Bool
  | AnyAuthenticator.script s => s.is_logged_in
  | AnyAuthenticator.user u => u.is_logged_in
  | AnyAuthenticator.application a => a.is_logged_in

/-- The world threaded through `AuthenticatedClient::get`: pending transport
responses (consumed one per GET) plus counters of issued GETs and of
`Authenticator::login` invocations. -/
structure GetWorld where
  responses : List Response
  gets : Nat
  logins : Nat
deriving Repr, DecidableEq

/-- `AuthenticatedClient::make_request` (lines 80-103): issue one GET with the
bearer token; the next pending response is consumed.  An exhausted oracle
stands for a transport failure (`reqwest::Error`). -/
def make_request (_token : Token) (w : GetWorld) : Except Error Response × GetWorld :=
  match w.responses with
  | [] => (Except.error (Error.RequestError "transport failure"),
           { w with gets := w.gets + 1 })
  | r :: rest => (Except.ok r, { w with responses := rest, gets := w.gets + 1 })

/-- `AuthenticatedClient::check_auth` (lines 106-119). -/
def check_auth (response : Response) : Except Error Bool :=
  let status := response.status
  if status = 200 then Except.ok true
  else if status = 403 ∨ status = 401 then Except.ok false
  else Except.error (Error.AuthenticationError
    ("Reddit returned an unexpected code: " ++ toString status))

/-- The tail of `AuthenticatedClient::get` (lines 59-76): refresh the token
via `Authenticator::login` and re-issue the GET once.  `login` models the
effect of `Authenticator::login` on the stored token; the `logins` counter is
bumped whether or not the login succeeds (the call was made). -/
def get_refresh (login : Option Token → Except Error (Option Token))
    (auth : Option Token) (w : GetWorld) :
    Except Error Response × Option Token × GetWorld :=
  match login auth with
  | Except.error e => (Except.error e, auth, { w with logins := w.logins + 1 })
  | Except.ok auth2 =>
    let w := { w with logins := w.logins + 1 }
    match auth2 with
    | some token =>
      match make_request token w with
      | (Except.error e, w) => (Except.error e, auth2, w)
      | (Except.ok r, w) =>
        if r.status = 200 then (Except.ok r, auth2, w)
        else (Except.error (Error.AuthenticationError
          "Failed to authenticate, even after requesting new token. Check credentials."),
          auth2, w)
    | none =>
      (Except.error (Error.AuthenticationError
        "Token was not set after logging in, but no error was returned. Report bug at https://github.com/Zower/snew"),
        auth2, w)

/-- `AuthenticatedClient::get` (lines 49-77): one GET with the current token
if present; on 200 return it; on 401/403 (or no token) refresh and retry
exactly once. -/
def AuthenticatedClient.get (login : Option Token → Except Error (Option Token))
    (auth : Option Token) (w : GetWorld) :
    Except Error Response × Option Token × GetWorld :=
  match auth with
  | some token =>
    match make_request token w with
    | (Except.error e, w) => (Except.error e, auth, w)
    | (Except.ok r, w) =>
      match check_auth r with
      | Except.error e => (Except.error e, auth, w)
      | Except.ok true => (Except.ok r, auth, w)
      | Except.ok false => get_refresh login auth w
  | none => get_refresh login auth w

/-- `Me` from `src/things.rs`. -/
structure Me where
  name : String
  total_karma : Int
  link_karma : Int
  comment_karma : Int
  verified : Bool
deriving Repr, DecidableEq

/-- `Reddit::me` from `src/reddit.rs` (lines 59-70): gated on
`is_logged_in`; `parseMe` models `serde_json::from_str::<Me>` on the body
(its error text becomes the `APIParseError` payload). -/
def Reddit.me (authenticator : AnyAuthenticator)
    (login : Option Token → Except Error (Option Token))
    (parseMe : String → Except String Me) (w : GetWorld) : Except Error Me × GetWorld :=
  if authenticator.is_logged_in then
    match AuthenticatedClient.get login authenticator.token w with
    | (Except.error e, _, w) => (Except.error e, w)
    | (Except.ok r, _, w) =>
      match parseMe r.body with
      | Except.error msg => (Except.error (Error.APIParseError msg), w)
      | Except.ok me => (Except.ok me, w)
  else (Except.error Error.NotLoggedInError, w)

/-- `Pagination` from `src/things.rs` (raw module). -/
structure Pagination where
  after : Option String
  before : Option String
deriving Repr, DecidableEq

/-- `RawListingData` from `src/things.rs`. -/
structure RawListingData (T : Type) where
  pagination : Pagination
  children : List T
deriving Repr, DecidableEq

/-- `RawListing` from `src/things.rs`. -/
structure RawListing (T : Type) where
  data : RawListingData T
deriving Repr, DecidableEq

/-- `RawKind` from `src/things.rs`. -/
structure RawKind (T : Type) where
  data : T
  kind : String
deriving Repr, DecidableEq

/-- `RawPostData` from `src/things.rs`. -/
structure RawPostData where
  title : String
  score : Int
  url : String
  author : String
  subreddit : String
  selftext : String
  num_comments : Nat
  is_self : Bool
  nsfw : Bool
  id : String
deriving Repr, DecidableEq

/-- `Post` from `src/things.rs` (the `Arc<AuthenticatedClient>` back-reference
carries no data relevant here and is omitted). -/
structure Post where
  title : String
  score : Int
  url : String
  author : String
  selftext : Option String
  subreddit : String
  num_comments : Nat
  is_self : Bool
  nsfw : Bool
  id : String
  kind : String
deriving Repr, DecidableEq

/-- `impl From<(RawKind<RawPostData>, Arc<AuthenticatedClient>)> for Post`
(lines 237-262). -/
def Post.fromRaw (raw : RawKind RawPostData) : Post :=
  { title := raw.data.title
    score := raw.data.score
    url := raw.data.url
    author := raw.data.author
    selftext := if raw.data.is_self then some raw.data.selftext else none
    subreddit := raw.data.subreddit
    num_comments := raw.data.num_comments
    is_self := raw.data.is_self
    nsfw := raw.data.nsfw
    id := raw.data.id
    kind := raw.kind }

/-- `RawCommentData` from `src/things.rs`. -/
structure RawCommentData where
  body : String
  id : String
deriving Repr, DecidableEq

/-- `Comment` from `src/things.rs`. -/
structure Comment where
  body : String
  id : String
deriving Repr, DecidableEq

/-- `impl From<RawKind<RawCommentData>> for Comment` (lines 265-272). -/
def Comment.fromRaw (raw : RawKind RawCommentData) : Comment :=
  { body := raw.data.body, id := raw.data.id }

/-- `Empty` from `src/things.rs`: the discarded first listing of a comments
response. -/
structure EmptyJson where
deriving Repr, DecidableEq

/-- `Vec::pop`: a `Vec` buffer is modelled with its top (last element) as the
list head, so popping is taking the head. -/
def vecPop {α : Type} : List α → Option α × List α
  | [] => (none, [])
  | x :: rest => (some x, rest)

/-- `Vec::extend`: pushes the elements of `xs` in order, so the last element
of `xs` ends up on top (at the head of the model list). -/
def vecExtend {α : Type} (v : List α) (xs : List α) : List α :=
  xs.reverse ++ v

/-- `PostFeed` from `src/things.rs` (lines 138-149); the shared
`Arc<AuthenticatedClient>` is supplied to `next` as the fetch oracle. -/
structure PostFeed where
  limit : Int
  url : String
  cached_posts : List Post
  after : String
deriving Repr, DecidableEq

/-- `impl Iterator for PostFeed`, `next` (lines 151-189).  `fetch` models
`self.client.get(url, queries)?.text()?` followed by
`serde_json::from_str::<RawListing<RawKind<RawPostData>>>`, i.e. one page
fetch; its `Except.error` covers both the HTTP and the JSON-parse failure.
The body of the `or_else_transpose` closure is inlined, and the final
`Ok(self.cached_posts.pop()).transpose()` becomes the last `match`. -/
def PostFeed.next
    (fetch : String → Option (List (String × String)) →
      Except Error (RawListing (RawKind RawPostData)))
    (self : PostFeed) : Option (Except Error Post) × PostFeed :=
  match vecPop self.cached_posts with
  | (some post, rest) => (some (Except.ok post), { self with cached_posts := rest })
  | (none, _) =>
    match fetch self.url (some [("limit", toString self.limit), ("after", self.after)]) with
    | Except.error e => (some (Except.error e), self)
    | Except.ok listing =>
      let self2 :=
        match listing.data.pagination.after with
        | some after => { self with after := after }
        | none => self
      let cached :=
        vecExtend self2.cached_posts (listing.data.children.reverse.map Post.fromRaw)
      match vecPop cached with
      | (some post, rest) => (some (Except.ok post), { self2 with cached_posts := rest })
      | (none, rest) => (none, { self2 with cached_posts := rest })

/-- `CommentFeed` from `src/things.rs` (lines 200-204): note there is no
cursor field. -/
structure CommentFeed where
  url : String
  cached_comments : List Comment
deriving Repr, DecidableEq

/-- `impl Iterator for CommentFeed`, `next` (lines 205-224).  The GET is made
with `None::<&()>` as queries, and the response parses as a pair whose first
component (the post listing) is discarded. -/
def CommentFeed.next
    (fetch : String → Option (List (String × String)) →
      Except Error (EmptyJson × RawListing (RawKind RawCommentData)))
    (self : CommentFeed) : Option (Except Error Comment) × CommentFeed :=
  match vecPop self.cached_comments with
  | (some comment, rest) => (some (Except.ok comment), { self with cached_comments := rest })
  | (none, _) =>
    match fetch self.url none with
    | Except.error e => (some (Except.error e), self)
    | Except.ok listings =>
      let cached :=
        vecExtend self.cached_comments (listings.2.data.children.reverse.map Comment.fromRaw)
      match vecPop cached with
      | (some comment, rest) => (some (Except.ok comment), { self with cached_comments := rest })
      | (none, rest) => (none, { self with cached_comments := rest })

/-- Iterate `PostFeed.next` a given number of times, collecting the yielded
elements and the final feed state. -/
def runNext
    (fetch : String → Option (List (String × String)) →
      Except Error (RawListing (RawKind RawPostData))) :
    Nat → PostFeed → List (Option (Except Error Post)) × PostFeed
  | 0, self => ([], self)
  | n + 1, self =>
    let step := PostFeed.next fetch self
    let rest := runNext fetch n step.2
    (step.1 :: rest.1, rest.2)

/-- Canonical distinct non-empty cursor names for the test server: the cursor
for page `i` is the string of `i` letters `a`; `cname 0 = ""` is the initial
cursor a fresh feed starts with. -/
def cname (i : Nat) : String :=
  String.mk (List.replicate i 'a')

/-- A paginated server holding the given pages: a fetch whose `after` query
names page `i` (decoded by cursor length) answers with page `i`'s items and a
non-empty declared next cursor; past the last page it answers the final empty
page with no next cursor. -/
def mkFetch (pages : List (List (RawKind RawPostData))) :
    String → Option (List (String × String)) →
      Except Error (RawListing (RawKind RawPostData)) :=
  fun _url queries =>
    let a : String :=
      match queries with
      | some [_, (_, av)] => av
      | _ => ""
    match pages.drop a.length with
    | p :: _ => Except.ok ⟨⟨⟨some (cname (a.length + 1)), none⟩, p⟩⟩
    | [] => Except.ok ⟨⟨⟨none, none⟩, []⟩⟩

/-! ## Theorems -/

/-- C2: if the page fetch fails, `PostFeed::next` yields that error as the
next element and leaves the cursor (`after`) and the buffer of cached posts
exactly as they were, so a later call on the same feed retries from the same
cursor and the feed is not marked exhausted. -/
theorem postFeed_fetch_error_preserves_state
    (fetch : String → Option (List (String × String)) →
      Except Error (RawListing (RawKind RawPostData)))
    (self : PostFeed) (e : Error)
    (hbuf : self.cached_posts = [])
    (hfetch : fetch self.url (some [("limit", toString self.limit), ("after", self.after)]) =
      Except.error e) :
    PostFeed.next fetch self = (some (Except.error e), self) := by
  cases self with
  | mk limit url cached after =>
    simp only at hbuf
    subst hbuf
    simp [PostFeed.next, vecPop, hfetch]

/-- A transport oracle that always fails; used to exhibit concrete failing
fetches. -/
def failingFetch : String → Option (List (String × String)) →
    Except Error (RawListing (RawKind RawPostData)) :=
  fun _url _queries => Except.error (Error.RequestError "connection reset")

theorem postFeed_fetch_error_preserves_state_witness :
    PostFeed.next failingFetch ⟨100, "u", [], "cur"⟩ =
      (some (Except.error (Error.RequestError "connection reset")), ⟨100, "u", [], "cur"⟩) :=
  postFeed_fetch_error_preserves_state failingFetch ⟨100, "u", [], "cur"⟩
    (Error.RequestError "connection reset") rfl rfl

/-- C7: `parse_response` checks the body shapes in a fixed order: the
token shape wins outright; otherwise the single-field error shape yields an
authentication error carrying the upstream reason; only if neither parses is
the HTTP status consulted, 401 giving the credential-mismatch message and any
other status the opaque message that includes the raw body. -/
theorem parse_response_shape_order
    (pt : String → Option TokenJson) (pe : String → Option OkButError)
    (response : Response) :
    (∀ tj, pt response.body = some tj → parse_response pt pe response = Except.ok tj) ∧
    (∀ err, pt response.body = none → pe response.body = some err →
      parse_response pt pe response = Except.error (Error.AuthenticationError
        ("Username or password are most likely wrong" ++ ", Reddit returned: " ++ err.error))) ∧
    (pt response.body = none → pe response.body = none → response.status = 401 →
      parse_response pt pe response = Except.error (Error.AuthenticationError
        "Reddit returned 401 Unauthorized, are client ID and secret correct?")) ∧
    (pt response.body = none → pe response.body = none → response.status ≠ 401 →
      parse_response pt pe response = Except.error (Error.AuthenticationError
        ("Unexpected error occured, text: " ++ response.body ++ ", code: " ++
          toString response.status))) := by
  refine ⟨?_, ?_, ?_, ?_⟩ <;> intros <;> simp_all [parse_response]

/-- A token-shape parser recognizing exactly the body `"tokbody"`. -/
def ptTok : String → Option TokenJson :=
  fun s => if s = "tokbody" then some ⟨"tok", 3600, "*", "bearer", none⟩ else none

/-- An error-shape parser recognizing exactly the body `"errbody"`. -/
def peErr : String → Option OkButError :=
  fun s => if s = "errbody" then some ⟨"invalid_grant"⟩ else none

theorem parse_response_shape_order_witness :
    parse_response ptTok peErr ⟨200, "tokbody"⟩ =
      Except.ok ⟨"tok", 3600, "*", "bearer", none⟩ ∧
    parse_response ptTok peErr ⟨200, "errbody"⟩ =
      Except.error (Error.AuthenticationError
        ("Username or password are most likely wrong" ++ ", Reddit returned: " ++ "invalid_grant")) ∧
    parse_response ptTok peErr ⟨401, "zzz"⟩ =
      Except.error (Error.AuthenticationError
        "Reddit returned 401 Unauthorized, are client ID and secret correct?") ∧
    parse_response ptTok peErr ⟨500, "zzz"⟩ =
      Except.error (Error.AuthenticationError
        ("Unexpected error occured, text: " ++ "zzz" ++ ", code: " ++ toString (500 : Nat))) :=
  ⟨(parse_response_shape_order ptTok peErr ⟨200, "tokbody"⟩).1 ⟨"tok", 3600, "*", "bearer", none⟩ rfl,
   (parse_response_shape_order ptTok peErr ⟨200, "errbody"⟩).2.1 ⟨"invalid_grant"⟩ rfl rfl,
   (parse_response_shape_order ptTok peErr ⟨401, "zzz"⟩).2.2.1 rfl rfl rfl,
   (parse_response_shape_order ptTok peErr ⟨500, "zzz"⟩).2.2.2 rfl rfl (by decide)⟩

/-- C8: each `login` implementation is atomic on the stored token: on success
the token is replaced wholesale by the newly parsed one; on any failure
(transport or parse) the authenticator is left exactly as it was. -/
theorem login_replaces_token_atomically
    (send : PostRequest → Except Error Response)
    (pt : String → Option TokenJson) (pe : String → Option OkButError)
    (s : ScriptAuthenticator) (u : UserAuthenticator) (a : ApplicationAuthenticator) :
    (∀ resp tj, send (script_request s) = Except.ok resp →
      parse_response pt pe resp = Except.ok tj →
      ScriptAuthenticator.login send pt pe s =
        (Except.ok (), { s with token := some (Token.ofJson tj) })) ∧
    (∀ e, (ScriptAuthenticator.login send pt pe s).1 = Except.error e →
      (ScriptAuthenticator.login send pt pe s).2 = s) ∧
    (∀ resp tj, send (user_request u) = Except.ok resp →
      parse_response pt pe resp = Except.ok tj →
      UserAuthenticator.login send pt pe u =
        (Except.ok (), { u with token := some (Token.ofJson tj) })) ∧
    (∀ e, (UserAuthenticator.login send pt pe u).1 = Except.error e →
      (UserAuthenticator.login send pt pe u).2 = u) ∧
    (∀ resp tj, send (application_request a) = Except.ok resp →
      parse_response pt pe resp = Except.ok tj →
      ApplicationAuthenticator.login send pt pe a =
        (Except.ok (), { a with token := some (Token.ofJson tj) })) ∧
    (∀ e, (ApplicationAuthenticator.login send pt pe a).1 = Except.error e →
      (ApplicationAuthenticator.login send pt pe a).2 = a) := by
  refine ⟨?_, ?_, ?_, ?_, ?_, ?_⟩
  · intro resp tj hs hp
    simp [ScriptAuthenticator.login, hs, hp]
  · intro e he
    cases hs : send (script_request s) with
    | error e2 => simp [ScriptAuthenticator.login, hs]
    | ok resp =>
      cases hp : parse_response pt pe resp with
      | error e2 => simp [ScriptAuthenticator.login, hs, hp]
      | ok tj => simp [ScriptAuthenticator.login, hs, hp] at he
  · intro resp tj hs hp
    simp [UserAuthenticator.login, hs, hp]
  · intro e he
    cases hs : send (user_request u) with
    | error e2 => simp [UserAuthenticator.login, hs]
    | ok resp =>
      cases hp : parse_response pt pe resp with
      | error e2 => simp [UserAuthenticator.login, hs, hp]
      | ok tj => simp [UserAuthenticator.login, hs, hp] at he
  · intro resp tj hs hp
    simp [ApplicationAuthenticator.login, hs, hp]
  · intro e he
    cases hs : send (application_request a) with
    | error e2 => simp [ApplicationAuthenticator.login, hs]
    | ok resp =>
      cases hp : parse_response pt pe resp with
      | error e2 => simp [ApplicationAuthenticator.login, hs, hp]
      | ok tj => simp [ApplicationAuthenticator.login, hs, hp] at he

/-- A transport oracle whose POSTs always answer 200 with the token body. -/
def sendTok : PostRequest → Except Error Response :=
  fun _request => Except.ok ⟨200, "tokbody"⟩

/-- A transport oracle whose POSTs always fail. -/
def sendDown : PostRequest → Except Error Response :=
  fun _request => Except.error (Error.RequestError "connection refused")

def script0 : ScriptAuthenticator := ⟨⟨"cid", "sec", "user", "pw"⟩, none⟩

def user0 : UserAuthenticator := ⟨"rtok", some ⟨"old", 1, "*", "bearer"⟩, "cid"⟩

def app0 : ApplicationAuthenticator := ⟨"cid", none⟩

theorem login_replaces_token_atomically_witness :
    ScriptAuthenticator.login sendTok ptTok peErr script0 =
      (Except.ok (), { script0 with token := some (Token.ofJson ⟨"tok", 3600, "*", "bearer", none⟩) }) ∧
    (ScriptAuthenticator.login sendDown ptTok peErr script0).2 = script0 ∧
    UserAuthenticator.login sendTok ptTok peErr user0 =
      (Except.ok (), { user0 with token := some (Token.ofJson ⟨"tok", 3600, "*", "bearer", none⟩) }) ∧
    (UserAuthenticator.login sendDown ptTok peErr user0).2 = user0 ∧
    ApplicationAuthenticator.login sendTok ptTok peErr app0 =
      (Except.ok (), { app0 with token := some (Token.ofJson ⟨"tok", 3600, "*", "bearer", none⟩) }) ∧
    (ApplicationAuthenticator.login sendDown ptTok peErr app0).2 = app0 :=
  ⟨(login_replaces_token_atomically sendTok ptTok peErr script0 user0 app0).1
      ⟨200, "tokbody"⟩ ⟨"tok", 3600, "*", "bearer", none⟩ rfl rfl,
   (login_replaces_token_atomically sendDown ptTok peErr script0 user0 app0).2.1
      (Error.RequestError "connection refused") rfl,
   (login_replaces_token_atomically sendTok ptTok peErr script0 user0 app0).2.2.1
      ⟨200, "tokbody"⟩ ⟨"tok", 3600, "*", "bearer", none⟩ rfl rfl,
   (login_replaces_token_atomically sendDown ptTok peErr script0 user0 app0).2.2.2.1
      (Error.RequestError "connection refused") rfl,
   (login_replaces_token_atomically sendTok ptTok peErr script0 user0 app0).2.2.2.2.1
      ⟨200, "tokbody"⟩ ⟨"tok", 3600, "*", "bearer", none⟩ rfl rfl,
   (login_replaces_token_atomically sendDown ptTok peErr script0 user0 app0).2.2.2.2.2
      (Error.RequestError "connection refused") rfl⟩

/-- C9: whenever the current authenticator reports `is_logged_in() == false`,
`Reddit::me` fails with `NotLoggedInError` and performs no network request
(the transport world, including its GET counter, is returned untouched). -/
theorem me_not_logged_in_no_network
    (authenticator : AnyAuthenticator)
    (login : Option Token → Except Error (Option Token))
    (parseMe : String → Except String Me) (w : GetWorld)
    (h : authenticator.is_logged_in = false) :
    Reddit.me authenticator login parseMe w = (Except.error Error.NotLoggedInError, w) := by
  simp [Reddit.me, h]

theorem me_not_logged_in_no_network_witness :
    Reddit.me (AnyAuthenticator.application ⟨"cid", some ⟨"live", 3600, "*", "bearer"⟩⟩)
      (fun t => Except.ok t) (fun _ => Except.error "unused") ⟨[⟨200, "body"⟩], 0, 0⟩ =
      (Except.error Error.NotLoggedInError, ⟨[⟨200, "body"⟩], 0, 0⟩) :=
  me_not_logged_in_no_network
    (AnyAuthenticator.application ⟨"cid", some ⟨"live", 3600, "*", "bearer"⟩⟩)
    (fun t => Except.ok t) (fun _ => Except.error "unused") ⟨[⟨200, "body"⟩], 0, 0⟩ rfl

/-- C10: `ApplicationAuthenticator::is_logged_in` is unconditionally `false`
(even when a token is stored), so `Reddit::me` under an application
authenticator always fails with `NotLoggedInError` without touching the
network; `ScriptAuthenticator` and `UserAuthenticator` report `is_logged_in`
exactly when a token is currently stored. -/
theorem is_logged_in_characterization :
    (∀ a : ApplicationAuthenticator, a.is_logged_in = false) ∧
    (∀ s : ScriptAuthenticator, s.is_logged_in = s.token.isSome) ∧
    (∀ u : UserAuthenticator, u.is_logged_in = u.token.isSome) ∧
    (∀ (a : ApplicationAuthenticator)
      (login : Option Token → Except Error (Option Token))
      (parseMe : String → Except String Me) (w : GetWorld),
      Reddit.me (AnyAuthenticator.application a) login parseMe w =
        (Except.error Error.NotLoggedInError, w)) := by
  refine ⟨fun a => rfl, fun s => rfl, fun u => rfl, fun a login parseMe w => ?_⟩
  simp [Reddit.me, AnyAuthenticator.is_logged_in, ApplicationAuthenticator.is_logged_in]

/-- C3: with a token present, a first GET answered 401 (or 403) followed by a
refreshed GET answered 200 makes the overall `AuthenticatedClient::get` call
return the successful response, having invoked `Authenticator::login` exactly
once and issued exactly two GETs. -/
theorem get_retries_once_after_auth_failure
    (login : Option Token → Except Error (Option Token)) (t t2 : Token)
    (r1 r2 : Response) (rest : List Response) (g l : Nat)
    (h1 : r1.status = 401 ∨ r1.status = 403)
    (h2 : r2.status = 200)
    (hlogin : login (some t) = Except.ok (some t2)) :
    AuthenticatedClient.get login (some t) ⟨r1 :: r2 :: rest, g, l⟩ =
      (Except.ok r2, some t2, ⟨rest, g + 2, l + 1⟩) := by
  have hne : r1.status ≠ 200 := by rcases h1 with h | h <;> simp [h]
  rcases h1 with h | h <;>
    simp [AuthenticatedClient.get, make_request, check_auth, get_refresh, h, h2, hlogin,
      hne]

theorem get_retries_once_after_auth_failure_witness :
    AuthenticatedClient.get (fun _ => Except.ok (some ⟨"new", 3600, "*", "bearer"⟩))
      (some ⟨"old", 3600, "*", "bearer"⟩) ⟨[⟨401, "denied"⟩, ⟨200, "page"⟩], 0, 0⟩ =
      (Except.ok ⟨200, "page"⟩, some ⟨"new", 3600, "*", "bearer"⟩, ⟨[], 2, 1⟩) :=
  get_retries_once_after_auth_failure (fun _ => Except.ok (some ⟨"new", 3600, "*", "bearer"⟩))
    ⟨"old", 3600, "*", "bearer"⟩ ⟨"new", 3600, "*", "bearer"⟩
    ⟨401, "denied"⟩ ⟨200, "page"⟩ [] 0 0 (Or.inl rfl) rfl rfl

/-- C4: with a token present, when both the first GET and the post-refresh
GET are answered 401, `AuthenticatedClient::get` fails with an
`AuthenticationError` having issued exactly two GETs and one login — the
remaining transport queue is untouched, so no third request is made. -/
theorem get_fails_after_second_auth_failure
    (login : Option Token → Except Error (Option Token)) (t t2 : Token)
    (r1 r2 : Response) (rest : List Response) (g l : Nat)
    (h1 : r1.status = 401)
    (h2 : r2.status = 401)
    (hlogin : login (some t) = Except.ok (some t2)) :
    AuthenticatedClient.get login (some t) ⟨r1 :: r2 :: rest, g, l⟩ =
      (Except.error (Error.AuthenticationError
        "Failed to authenticate, even after requesting new token. Check credentials."),
        some t2, ⟨rest, g + 2, l + 1⟩) := by
  simp [AuthenticatedClient.get, make_request, check_auth, get_refresh, h1, h2, hlogin]

theorem get_fails_after_second_auth_failure_witness :
    AuthenticatedClient.get (fun _ => Except.ok (some ⟨"new", 3600, "*", "bearer"⟩))
      (some ⟨"old", 3600, "*", "bearer"⟩) ⟨[⟨401, "denied"⟩, ⟨401, "denied again"⟩], 0, 0⟩ =
      (Except.error (Error.AuthenticationError
        "Failed to authenticate, even after requesting new token. Check credentials."),
        some ⟨"new", 3600, "*", "bearer"⟩, ⟨[], 2, 1⟩) :=
  get_fails_after_second_auth_failure (fun _ => Except.ok (some ⟨"new", 3600, "*", "bearer"⟩))
    ⟨"old", 3600, "*", "bearer"⟩ ⟨"new", 3600, "*", "bearer"⟩
    ⟨401, "denied"⟩ ⟨401, "denied again"⟩ [] 0 0 rfl rfl rfl

/-- C5 (amended): when the *first* GET (with a token present) returns a
status outside {200, 401, 403}, the call fails immediately with
`Error::AuthenticationError` carrying the message
`"Reddit returned an unexpected code: <status>"` — the code has no distinct
unexpected-status error kind — without invoking `Authenticator::login` and
without issuing further requests; refresh is triggered only by 401/403. -/
theorem get_first_unexpected_status_fails_without_login
    (login : Option Token → Except Error (Option Token)) (t : Token)
    (r1 : Response) (rest : List Response) (g l : Nat)
    (h200 : r1.status ≠ 200) (h401 : r1.status ≠ 401) (h403 : r1.status ≠ 403) :
    AuthenticatedClient.get login (some t) ⟨r1 :: rest, g, l⟩ =
      (Except.error (Error.AuthenticationError
        ("Reddit returned an unexpected code: " ++ toString r1.status)),
        some t, ⟨rest, g + 1, l⟩) := by
  simp [AuthenticatedClient.get, make_request, check_auth, h200, h401, h403]

theorem get_first_unexpected_status_fails_without_login_witness :
    AuthenticatedClient.get (fun _ => Except.ok (some ⟨"new", 3600, "*", "bearer"⟩))
      (some ⟨"old", 3600, "*", "bearer"⟩) ⟨[⟨500, "oops"⟩, ⟨200, "page"⟩], 0, 0⟩ =
      (Except.error (Error.AuthenticationError
        ("Reddit returned an unexpected code: " ++ toString (500 : Nat))),
        some ⟨"old", 3600, "*", "bearer"⟩, ⟨[⟨200, "page"⟩], 1, 0⟩) :=
  get_first_unexpected_status_fails_without_login
    (fun _ => Except.ok (some ⟨"new", 3600, "*", "bearer"⟩))
    ⟨"old", 3600, "*", "bearer"⟩ ⟨500, "oops"⟩ [⟨200, "page"⟩] 0 0
    (by decide) (by decide) (by decide)

/-- C5 counterexample: the claim as stated ("if *any* GET returns a status
outside {200, 401, 403} the call fails ... *without invoking login*") is
false.  With a token present, a first GET answered 401 and a post-refresh GET
answered 500, the call fails with the generic post-refresh
`AuthenticationError` (not the unexpected-code one) *after* invoking login
exactly once: the final login counter is 1, not 0. -/
theorem get_unexpected_status_after_refresh_counterexample :
    AuthenticatedClient.get (fun _ => Except.ok (some ⟨"new", 3600, "*", "bearer"⟩))
      (some ⟨"old", 3600, "*", "bearer"⟩) ⟨[⟨401, "denied"⟩, ⟨500, "oops"⟩], 0, 0⟩ =
      (Except.error (Error.AuthenticationError
        "Failed to authenticate, even after requesting new token. Check credentials."),
        some ⟨"new", 3600, "*", "bearer"⟩, ⟨[], 2, 1⟩) ∧
    (AuthenticatedClient.get (fun _ => Except.ok (some ⟨"new", 3600, "*", "bearer"⟩))
      (some ⟨"old", 3600, "*", "bearer"⟩) ⟨[⟨401, "denied"⟩, ⟨500, "oops"⟩], 0, 0⟩).2.2.logins ≠ 0 := by
  refine ⟨by rfl, by decide⟩

/-- C6 (amended, `PostFeed` half): `PostFeed` keeps exactly one cursor.  The
cursor only ever changes to the next cursor declared by a successful fetch
issued *at the current cursor* (sent as the `after` query parameter), and on
such a fetch it becomes the declared cursor when one is present and stays put
otherwise; it is never changed in any other way. -/
theorem postFeed_cursor_discipline
    (fetch : String → Option (List (String × String)) →
      Except Error (RawListing (RawKind RawPostData)))
    (self : PostFeed) :
    ((PostFeed.next fetch self).2.after = self.after ∨
      ∃ listing,
        fetch self.url (some [("limit", toString self.limit), ("after", self.after)]) =
          Except.ok listing ∧
        listing.data.pagination.after = some (PostFeed.next fetch self).2.after) ∧
    (∀ listing, self.cached_posts = [] →
      fetch self.url (some [("limit", toString self.limit), ("after", self.after)]) =
        Except.ok listing →
      (PostFeed.next fetch self).2.after = (listing.data.pagination.after).getD self.after) := by
  obtain ⟨limit, url, cached, after⟩ := self
  cases cached with
  | cons p ps =>
    refine ⟨Or.inl ?_, fun listing hbuf _ => by cases hbuf⟩
    simp [PostFeed.next, vecPop]
  | nil =>
    have hsecond : ∀ listing,
        fetch url (some [("limit", toString limit), ("after", after)]) = Except.ok listing →
        (PostFeed.next fetch ⟨limit, url, [], after⟩).2.after =
          (listing.data.pagination.after).getD after := by
      intro listing hok
      cases ha : listing.data.pagination.after with
      | none =>
        cases hch : listing.data.children with
        | nil => simp [PostFeed.next, vecPop, vecExtend, hok, ha, hch]
        | cons c cs => simp [PostFeed.next, vecPop, vecExtend, hok, ha, hch]
      | some a =>
        cases hch : listing.data.children with
        | nil => simp [PostFeed.next, vecPop, vecExtend, hok, ha, hch]
        | cons c cs => simp [PostFeed.next, vecPop, vecExtend, hok, ha, hch]
    refine ⟨?_, fun listing _ hok => hsecond listing hok⟩
    cases hf : fetch url (some [("limit", toString limit), ("after", after)]) with
    | error e =>
      left
      simp [PostFeed.next, vecPop, hf]
    | ok listing =>
      cases ha : listing.data.pagination.after with
      | none =>
        left
        rw [hsecond listing hf, ha]
        rfl
      | some a =>
        right
        refine ⟨listing, rfl, ?_⟩
        rw [ha, hsecond listing hf, ha]
        rfl

/-- A concrete raw post record. -/
def rawPost0 : RawKind RawPostData :=
  ⟨⟨"title", 10, "https://example.invalid", "author", "sub", "text", 3, true, false, "abc"⟩, "t3"⟩

/-- A concrete successful page response declaring next cursor `"next"`. -/
def listing0 : RawListing (RawKind RawPostData) :=
  ⟨⟨⟨some "next", none⟩, [rawPost0]⟩⟩

/-- A transport oracle always answering with `listing0`. -/
def okFetch : String → Option (List (String × String)) →
    Except Error (RawListing (RawKind RawPostData)) :=
  fun _url _queries => Except.ok listing0

theorem postFeed_cursor_discipline_witness :
    (PostFeed.next okFetch ⟨100, "u", [], "cur"⟩).2.after = "next" :=
  (postFeed_cursor_discipline okFetch ⟨100, "u", [], "cur"⟩).2 listing0 rfl rfl

/-- A transport oracle that reports, through the returned error, whether any
query parameters were attached to the GET it received. -/
def recordingFetch : String → Option (List (String × String)) →
    Except Error (EmptyJson × RawListing (RawKind RawCommentData)) :=
  fun _url queries =>
    Except.error (Error.RequestError
      (match queries with
       | none => "no query parameters sent"
       | some _ => "query parameters sent"))

/-- C6 counterexample: the claim as stated ("every resource feed, PostFeed
and CommentFeed alike, maintains exactly one cursor: each page fetch sends the
current cursor as the 'after' query parameter ...") is false for
`CommentFeed`: the struct has no cursor field at all, and its page fetch
passes `None` as the query set — observed here by a recording transport — so
no `after` parameter is ever sent. -/
theorem commentFeed_sends_no_after_counterexample :
    CommentFeed.next recordingFetch ⟨"https://oauth.reddit.com/r/sub/comments/abc", []⟩ =
      (some (Except.error (Error.RequestError "no query parameters sent")),
        ⟨"https://oauth.reddit.com/r/sub/comments/abc", []⟩) := rfl

lemma cname_length (i : Nat) : (cname i).length = i := by
  simp [cname, String.length]

lemma cname_zero : cname 0 = "" := rfl

/-- Draining a non-empty buffer: as long as cached posts remain, each `next`
pops one (in buffer order) without fetching, and iteration then continues
from the same cursor with an empty buffer. -/
lemma runNext_drain
    (fetch : String → Option (List (String × String)) →
      Except Error (RawListing (RawKind RawPostData)))
    (k : Nat) (l : List Post) : ∀ (lim : Int) (url a : String),
    runNext fetch (k + l.length) ⟨lim, url, l, a⟩ =
      ((l.map fun post => some (Except.ok post)) ++ (runNext fetch k ⟨lim, url, [], a⟩).1,
        (runNext fetch k ⟨lim, url, [], a⟩).2) := by
  induction l with
  | nil =>
    intro lim url a
    simp
  | cons x xs ih =>
    intro lim url a
    rw [List.length_cons, Nat.add_succ]
    simp only [runNext, PostFeed.next, vecPop]
    rw [ih lim url a]
    simp

/-- Iterating against the canonical paginated server: starting at cursor `i`
with an empty buffer, the feed yields exactly the items of the remaining
pages in order, then `none`, finishing at the cursor past the last page. -/
lemma runNext_mkFetch_aux (pages : List (List (RawKind RawPostData))) (lim : Int)
    (url : String) :
    ∀ (rem : List (List (RawKind RawPostData))) (i : Nat),
      pages.drop i = rem → (∀ p ∈ rem, p ≠ []) →
      runNext (mkFetch pages) (rem.flatten.length + 1) ⟨lim, url, [], cname i⟩ =
        ((rem.flatten.map fun r => some (Except.ok (Post.fromRaw r))) ++ [none],
          ⟨lim, url, [], cname (i + rem.length)⟩) := by
  intro rem
  induction rem with
  | nil =>
    intro i hdrop _
    simp [runNext, PostFeed.next, vecPop, vecExtend, mkFetch, cname_length, hdrop]
  | cons p rest ih =>
    intro i hdrop hne
    cases p with
    | nil => exact absurd rfl (hne [] (List.mem_cons_self _ _))
    | cons x xs =>
      have hdrop1 : pages.drop (i + 1) = rest := by
        have h2 := List.drop_drop 1 i pages
        rw [hdrop] at h2
        simpa using h2.symm
      have hne1 : ∀ q ∈ rest, q ≠ [] := fun q hq => hne q (List.mem_cons_of_mem _ hq)
      have htot : ((x :: xs) :: rest).flatten.length + 1 =
          ((rest.flatten.length + 1) + xs.length) + 1 := by
        simp [List.flatten_cons]
        omega
      rw [htot]
      simp only [runNext, PostFeed.next, vecPop, vecExtend, mkFetch, cname_length, hdrop,
        List.map_reverse, List.reverse_reverse, List.append_nil, List.map_cons]
      rw [show (rest.flatten.length + 1) + xs.length =
        (rest.flatten.length + 1) + (xs.map Post.fromRaw).length by simp]
      rw [runNext_drain (mkFetch pages) (rest.flatten.length + 1) (xs.map Post.fromRaw) lim url
        (cname (i + 1))]
      rw [ih (i + 1) hdrop1 hne1]
      have hcn : i + 1 + rest.length = i + (rest.length + 1) := by omega
      simp [List.flatten_cons, hcn]

/-- C1: for every sequence of non-empty pages (each declaring a non-empty
next cursor) followed by a final empty page, iterating a fresh `PostFeed`
yields exactly the concatenation of the pages' items, in the order the server
returned them within each page, followed by `none` (exhaustion) once the
empty page is reached. -/
theorem postFeed_yields_pages_then_exhausts
    (pages : List (List (RawKind RawPostData)))
    (hne : ∀ p ∈ pages, p ≠ []) (lim : Int) (url : String) :
    runNext (mkFetch pages) (pages.flatten.length + 1) ⟨lim, url, [], ""⟩ =
      ((pages.flatten.map fun r => some (Except.ok (Post.fromRaw r))) ++ [none],
        ⟨lim, url, [], cname pages.length⟩) := by
  rw [show ("" : String) = cname 0 from rfl]
  simpa using runNext_mkFetch_aux pages lim url pages 0 (by simp) hne

def rawPostA : RawKind RawPostData :=
  ⟨⟨"first", 5, "u1", "au1", "s", "t1", 0, false, false, "a1"⟩, "t3"⟩

def rawPostB : RawKind RawPostData :=
  ⟨⟨"second", 6, "u2", "au2", "s", "t2", 1, true, false, "b2"⟩, "t3"⟩

def rawPostC : RawKind RawPostData :=
  ⟨⟨"third", 7, "u3", "au3", "s", "t3", 2, false, true, "c3"⟩, "t3"⟩

/-- Two pages of sizes two and one, followed by the server's final empty
page. -/
def pagesW : List (List (RawKind RawPostData)) := [[rawPostA, rawPostB], [rawPostC]]

theorem postFeed_yields_pages_then_exhausts_witness :
    runNext (mkFetch pagesW) 4 ⟨100, "u", [], ""⟩ =
      ([some (Except.ok (Post.fromRaw rawPostA)), some (Except.ok (Post.fromRaw rawPostB)),
        some (Except.ok (Post.fromRaw rawPostC)), none], ⟨100, "u", [], cname 2⟩) :=
  postFeed_yields_pages_then_exhausts pagesW (by decide) 100 "u"

end Snew
